import Mathlib

/-!
Verification of the botty session engine: the per-session state stack
(session.PushState, session.PopState, session.ReplaceState,
session.ResetToState, session.DropStates), the inline interaction
tracker (session.currentInlineMessages), the session registry
(Bot.getOrCreateSession), the admission check of Bot.Run and the
callback dispatch of session.Handle, translated from the Go sources.
States are opaque values of a type parameter S; inline handlers are
opaque values of a type parameter H.  Each engine operation is
translated as a pure function that returns the updated session
together with the ordered list of lifecycle calls and transport side
effects it performs, so that ordering claims about Enter, Leave and
Return can be stated and settled.
-/

/-- Lifecycle calls and keyboard removals performed by the session
state stack, listed in the order the Go code performs them.
A removeKeyboard event records the RemoveKeyboard call that
session.removeCurrentInlineMessages issues for each tracked inline
message before resetting the tracker. -/
inductive LifeEvent (S : Type) where
  | leave (s : S)
  | enter (s : S)
  | ret (s : S)
  | removeKeyboard (messageId : Int)
  deriving DecidableEq

/-- The mutable part of a Go session value that the state stack
operations touch: the state stack (last element of the list is the
top of the stack, matching the Go slice whose append end is the top)
and the inline interaction tracker, a map from message id to handler,
modelled as an association list. -/
structure StmSession (S H : Type) where
  stateStack : List S
  currentInlineMessages : List (Int × H)
  deriving DecidableEq

/-- Lookup in an association list keyed by Int, modelling a Go map
read with its ok flag.  Used for the inline message tracker and for
the session registry. -/
def lookupBy {B : Type} : List (Int × B) → Int → Option B
  | [], _ => none
  | p :: rest, k => if p.1 = k then some p.2 else lookupBy rest k

/-- Translation of session.removeCurrentInlineMessages: call
RemoveKeyboard on every tracked inline message, then reset the
tracker to the empty map. -/
def removeCurrentInlineMessages {S H : Type} (bs : StmSession S H) :
    StmSession S H × List (LifeEvent S) :=
  (⟨bs.stateStack, []⟩,
   bs.currentInlineMessages.map (fun p => LifeEvent.removeKeyboard p.1))

/-- Translation of session.getOrPushCurrentState: if the stack is
empty, set it to the singleton holding the root state supplied by the
bot; return the last element of the (now nonempty) stack. -/
def getOrPushCurrentState {S H : Type} (root : S) (bs : StmSession S H) :
    S × StmSession S H :=
  match bs.stateStack.getLast? with
  | none => (root, ⟨[root], bs.currentInlineMessages⟩)
  | some s => (s, bs)

/-- Translation of session.CurrentState: nil (none) when the stack is
empty, otherwise the last element of the stack. -/
def currentState {S H : Type} (bs : StmSession S H) : Option S :=
  bs.stateStack.getLast?

/-- Translation of session.PushState: if the stack is nonempty, call
Leave on the current top; then (unconditionally, the call sits
outside the emptiness guard in the source) remove the current inline
messages; append the new state; call Enter on it. -/
def pushState {S H : Type} (bs : StmSession S H) (s : S) :
    StmSession S H × List (LifeEvent S) :=
  let leaveEvents : List (LifeEvent S) :=
    match bs.stateStack.getLast? with
    | some top => [LifeEvent.leave top]
    | none => []
  let cleared := removeCurrentInlineMessages bs
  (⟨cleared.1.stateStack ++ [s], cleared.1.currentInlineMessages⟩,
   leaveEvents ++ cleared.2 ++ [LifeEvent.enter s])

/-- Reading of claim C1 as worded in the specification: on a push,
only when the stack is nonempty are Leave called and the inline
interaction bindings cleared; then the state is appended and Enter is
called.  This definition follows the words of the specification
sentence and is compared against pushState, which is translated from
the source. -/
def pushStateClaimed {S H : Type} (bs : StmSession S H) (s : S) :
    StmSession S H × List (LifeEvent S) :=
  match bs.stateStack.getLast? with
  | some top =>
    (⟨bs.stateStack ++ [s], []⟩,
     LifeEvent.leave top ::
       bs.currentInlineMessages.map (fun p => LifeEvent.removeKeyboard p.1) ++
       [LifeEvent.enter s])
  | none =>
    (⟨bs.stateStack ++ [s], bs.currentInlineMessages⟩, [LifeEvent.enter s])

/-- Translation of session.PopState: return unchanged when the stack
is empty; otherwise call Leave on the current top, remove the current
inline messages, drop the top element, rematerialize the root state
if the stack became empty, and call Return on the resulting top. -/
def popState {S H : Type} (root : S) (bs : StmSession S H) :
    StmSession S H × List (LifeEvent S) :=
  match bs.stateStack.getLast? with
  | none => (bs, [])
  | some top =>
    let cleared := removeCurrentInlineMessages bs
    let popped : StmSession S H :=
      ⟨cleared.1.stateStack.dropLast, cleared.1.currentInlineMessages⟩
    let cur := getOrPushCurrentState root popped
    (cur.2, LifeEvent.leave top :: cleared.2 ++ [LifeEvent.ret cur.1])

/-- Translation of session.DropStates for a count n of states to
remove: keep the first length - n elements when more than n states
are on the stack, otherwise clear the stack; then rematerialize the
root state if needed and call Return once on the resulting top.
Leave is not called and the inline message tracker is not touched. -/
def dropStates {S H : Type} (root : S) (bs : StmSession S H) (n : Nat) :
    StmSession S H × List (LifeEvent S) :=
  let newStack : List S :=
    if bs.stateStack.length > n then
      bs.stateStack.take (bs.stateStack.length - n)
    else []
  let cur := getOrPushCurrentState root ⟨newStack, bs.currentInlineMessages⟩
  (cur.2, [LifeEvent.ret cur.1])

/-- Translation of session.DropStates called on a session whose state
stack is empty, with its Go int argument.  The stack of such a
session is the nil slice (capacity 0): a fresh session starts with a
nil stack and every public operation that empties the stack either
assigns nil to it or rematerializes the root before returning.
For n below zero the source takes the branch for length above n
(0 is above any negative n) and reslices the stack to length 0 - n,
which exceeds the nil slice capacity, so the Go runtime aborts the
program with a bounds error; this outcome is modelled by none.
For n at least zero both source branches agree with dropStates
applied to the corresponding natural number. -/
def dropStatesIntOnEmpty {S H : Type} (root : S)
    (ims : List (Int × H)) (n : Int) :
    Option (StmSession S H × List (LifeEvent S)) :=
  if n < 0 then none
  else some (dropStates root (⟨[], ims⟩ : StmSession S H) n.toNat)

/-- Translation of session.ReplaceState: return unchanged when the
stack is empty; otherwise overwrite the top element with the new
state and call Enter on it.  Leave is not called and the inline
message tracker is not touched. -/
def replaceState {S H : Type} (bs : StmSession S H) (s : S) :
    StmSession S H × List (LifeEvent S) :=
  match bs.stateStack.getLast? with
  | none => (bs, [])
  | some _ =>
    (⟨bs.stateStack.dropLast ++ [s], bs.currentInlineMessages⟩,
     [LifeEvent.enter s])

/-- Translation of session.ResetToState: clear the stack, then
perform an ordinary PushState of the given state. -/
def resetToState {S H : Type} (bs : StmSession S H) (s : S) :
    StmSession S H × List (LifeEvent S) :=
  pushState (⟨[], bs.currentInlineMessages⟩ : StmSession S H) s

/-- One navigation request against the state stack, for stating
properties of arbitrary operation sequences. -/
inductive StackOp (S : Type) where
  | push (s : S)
  | pop
  | replace (s : S)
  | reset (s : S)
  | drop (n : Nat)

/-- Dispatch of one navigation request to the translated session
operation. -/
def applyOp {S H : Type} (root : S) (bs : StmSession S H) :
    StackOp S → StmSession S H × List (LifeEvent S)
  | StackOp.push s => pushState bs s
  | StackOp.pop => popState root bs
  | StackOp.replace s => replaceState bs s
  | StackOp.reset s => resetToState bs s
  | StackOp.drop n => dropStates root bs n

/-- Sequential application of navigation requests, keeping only the
resulting session. -/
def applyOps {S H : Type} (root : S) (bs : StmSession S H) :
    List (StackOp S) → StmSession S H
  | [] => bs
  | op :: rest => applyOps root (applyOp root bs op).1 rest

/-- Translation of the functionState record of stm.go: the onEnter
hook is total (the state builder installs a default when none is
given), the onReturn and onLeave hooks are optional.  The hooks are
modelled as opaque action values of a type parameter A. -/
structure FunctionState (A : Type) where
  onEnter : A
  onReturn : Option A
  onLeave : Option A
  deriving DecidableEq

/-- Behavior of functionState.Enter: run the onEnter hook. -/
def enterBehavior {A : Type} (fs : FunctionState A) : A :=
  fs.onEnter

/-- Translation of functionState.Return: run the onReturn hook when
one is installed, otherwise fall back to the onEnter hook. -/
def returnBehavior {A : Type} (fs : FunctionState A) : A :=
  match fs.onReturn with
  | some r => r
  | none => fs.onEnter

/-- The session registry of the Bot value: a map from chat id to
session, modelled as an association list.  The identity fields and
the application state of a session are not part of the model; the
claims concern the stack and the tracker only. -/
structure BotModel (S H : Type) where
  sessions : List (Int × StmSession S H)
  deriving DecidableEq

/-- Observable actions of Bot.getOrCreateSession: construction of a
new session for a chat id, and the Activate call on the current state
of a freshly constructed session. -/
inductive BotEvent (S : Type) where
  | sessionConstructed (chatId : Int)
  | activate (s : S)
  deriving DecidableEq

/-- Translation of Bot.getOrCreateSession: under the registry lock,
look the chat id up in the session map; when present, return the
stored session with the registry untouched; when absent, construct a
fresh session (NewSession: empty stack, empty tracker), store it,
materialize its root state via getOrPushCurrentState and call
Activate on the current state. -/
def getOrCreateSession {S H : Type} (root : S) (b : BotModel S H)
    (chatId : Int) :
    StmSession S H × BotModel S H × List (BotEvent S) :=
  match lookupBy b.sessions chatId with
  | some s => (s, b, [])
  | none =>
    let fresh : StmSession S H := ⟨[], []⟩
    let cur := getOrPushCurrentState root fresh
    (cur.2, ⟨b.sessions ++ [(chatId, cur.2)]⟩,
     [BotEvent.sessionConstructed chatId, BotEvent.activate cur.1])

/-- Outcome of the admission fragment of the Bot.Run update loop for
one inbound update: whether UserManager.AddUser was invoked, and
whether the update reached session resolution (getOrCreateSession and
the handler chain) instead of being dropped by a continue. -/
structure AdmissionOutcome where
  addUserCalled : Bool
  sessionResolved : Bool
  deriving DecidableEq

/-- Translation of the admission fragment of Bot.Run: when
UserManager.UserExists denies the sending user, the update is dropped
unless acceptNewUser is set, in which case AddUser is attempted and
the update is dropped when that fails; a known user proceeds directly
to session resolution.  The registry is updated through
getOrCreateSession exactly when the update is admitted. -/
def runUpdateAdmission {S H : Type} (root : S) (b : BotModel S H)
    (userExists acceptNewUser addUserOk : Bool) (chatId : Int) :
    BotModel S H × AdmissionOutcome :=
  if !userExists then
    if !acceptNewUser then (b, ⟨false, false⟩)
    else if addUserOk then
      ((getOrCreateSession root b chatId).2.1, ⟨true, true⟩)
    else (b, ⟨true, false⟩)
  else ((getOrCreateSession root b chatId).2.1, ⟨false, true⟩)

/-- Transport side effects of the callback query branch of
session.Handle and of session.removeExpiredCallback. -/
inductive CbEffect where
  | removedKeyboard (messageId : Int)
  | expiredAlert
  | ackQuery
  deriving DecidableEq

/-- Translation of the callback query branch of session.Handle: ask
the current top state first via HandleCallbackQuery; when it declines,
look the message id of the pressed message up in the inline message
tracker and run the bound handler; when no binding exists or the
bound handler declines, fall through to removeExpiredCallback, which
removes the keyboard of the triggering message and acknowledges the
query with the expiry alert.  Every path reports the update as
handled.  The dynamic dispatch to the opaque state and handler values
is supplied through the interpretation functions stateHandles and
handlerHandles. -/
def handleCallbackEvent {S H D : Type} (root : S)
    (stateHandles : S → D → Bool) (handlerHandles : H → D → Bool)
    (bs : StmSession S H) (messageId : Int) (dat : D) :
    StmSession S H × List CbEffect × Bool :=
  let cur := getOrPushCurrentState root bs
  if stateHandles cur.1 dat then (cur.2, [], true)
  else
    match lookupBy cur.2.currentInlineMessages messageId with
    | some h =>
      if handlerHandles h dat then (cur.2, [CbEffect.ackQuery], true)
      else
        (cur.2, [CbEffect.removedKeyboard messageId, CbEffect.expiredAlert],
         true)
    | none =>
      (cur.2, [CbEffect.removedKeyboard messageId, CbEffect.expiredAlert],
       true)

/-- Helper: getOrPushCurrentState on a session whose stack ends in a
known element returns that element and leaves the session unchanged. -/
theorem getOrPushCurrentState_of_getLast {S H : Type} (root a : S)
    (bs : StmSession S H) (h : bs.stateStack.getLast? = some a) :
    getOrPushCurrentState root bs = (a, bs) := by
  unfold getOrPushCurrentState
  rw [h]

/-- Helper: getOrPushCurrentState on a session with an empty stack
materializes the root state. -/
theorem getOrPushCurrentState_of_empty {S H : Type} (root : S)
    (ims : List (Int × H)) :
    getOrPushCurrentState root (⟨[], ims⟩ : StmSession S H) =
      (root, ⟨[root], ims⟩) := rfl

/-- Claim C1 is false as stated: PushState on a session whose stack is
empty but whose inline tracker holds a binding still clears all inline
interaction bindings (the clearing sits outside the emptiness guard in
the source), whereas the conditional description of the claim keeps
them when the stack is empty.  At the concrete session with empty
stack and one tracked binding the two disagree. -/
theorem c1_pushState_counterexample :
    pushState (⟨[], [(5, ())]⟩ : StmSession Nat Unit) 7 ≠
      pushStateClaimed (⟨[], [(5, ())]⟩ : StmSession Nat Unit) 7 := by
  decide

/-- Claim C1 (amended): PushState calls Leave on the current top only
when the stack is nonempty, clears all inline interaction bindings in
every case (also when the stack is empty), then appends the new state
and calls Enter on it, in exactly that order. -/
theorem c1_pushState_amended {S H : Type} (st : List S) (top s : S)
    (ims : List (Int × H)) :
    pushState (⟨st ++ [top], ims⟩ : StmSession S H) s =
      (⟨st ++ [top] ++ [s], []⟩,
       LifeEvent.leave top ::
         ims.map (fun p => LifeEvent.removeKeyboard p.1) ++
         [LifeEvent.enter s]) ∧
    pushState (⟨[], ims⟩ : StmSession S H) s =
      (⟨[s], []⟩,
       ims.map (fun p => LifeEvent.removeKeyboard p.1) ++
         [LifeEvent.enter s]) := by
  constructor
  · simp [pushState, removeCurrentInlineMessages, List.getLast?_concat]
  · simp [pushState, removeCurrentInlineMessages]

/-- Claim C2: PopState is a no-op on every session with an empty
stack, whatever the inline tracker holds (the early return of the
source touches neither the stack nor the tracker); on a nonempty
stack it calls Leave on the current top, clears the inline bindings,
removes the top element and then calls Return on the new top (the
root state when the removed element was the only one); and a
functionState without a custom onReturn hook falls back to its
onEnter behavior on Return. -/
theorem c2_popState_lifecycle {S H A : Type} (root : S) :
    (∀ ims : List (Int × H),
      popState root (⟨[], ims⟩ : StmSession S H) = (⟨[], ims⟩, [])) ∧
    (∀ (st : List S) (top : S) (ims : List (Int × H)),
      popState root (⟨st ++ [top], ims⟩ : StmSession S H) =
        (⟨if st.isEmpty then [root] else st, []⟩,
         LifeEvent.leave top ::
           ims.map (fun p => LifeEvent.removeKeyboard p.1) ++
           [LifeEvent.ret (st.getLast?.getD root)])) ∧
    (∀ fs : FunctionState A,
      fs.onReturn = none → returnBehavior fs = enterBehavior fs) := by
  refine ⟨fun ims => rfl, ?_, ?_⟩
  · intro st top ims
    rcases st.eq_nil_or_concat' with rfl | ⟨ys, y, rfl⟩
    · simp [popState, removeCurrentInlineMessages, getOrPushCurrentState]
    · simp [popState, removeCurrentInlineMessages, getOrPushCurrentState,
        List.getLast?_concat, List.dropLast_concat]
  · intro fs h
    simp [returnBehavior, enterBehavior, h]

/-- Claim C2 witness: popping A from the stack holding R below A
yields the stack holding R with Leave called on A and Return (not
Enter) called on R; a functionState with no onReturn hook returns via
its onEnter behavior. -/
theorem c2_popState_witness :
    popState 9 (⟨[4, 5], []⟩ : StmSession Nat Unit) =
      (⟨[4], []⟩, [LifeEvent.leave 5, LifeEvent.ret 4]) ∧
    returnBehavior (⟨7, none, none⟩ : FunctionState Nat) =
      enterBehavior (⟨7, none, none⟩ : FunctionState Nat) := by
  constructor
  · have h := (@c2_popState_lifecycle Nat Unit Nat 9).2.1 [4] 5 []
    simpa using h
  · exact (@c2_popState_lifecycle Nat Unit Nat 9).2.2 ⟨7, none, none⟩ rfl

/-- Claim C3: ReplaceState on a session with a nonempty stack
overwrites the top element and calls Enter on the new state; Leave is
never called on the replaced state (the emitted events are exactly
the single Enter), the inline tracker is untouched, and every message
id resolves to the same handler after the replace as before. -/
theorem c3_replaceState_frame {S H : Type} (st : List S) (top s : S)
    (ims : List (Int × H)) :
    replaceState (⟨st ++ [top], ims⟩ : StmSession S H) s =
      (⟨st ++ [s], ims⟩, [LifeEvent.enter s]) ∧
    ∀ k : Int,
      lookupBy ((replaceState (⟨st ++ [top], ims⟩ : StmSession S H) s).1.currentInlineMessages) k =
        lookupBy ims k := by
  have h : replaceState (⟨st ++ [top], ims⟩ : StmSession S H) s =
      (⟨st ++ [s], ims⟩, [LifeEvent.enter s]) := by
    simp [replaceState, List.getLast?_concat, List.dropLast_concat]
  exact ⟨h, fun k => by rw [h]⟩

/-- Claim C4: DropStates with count n removes the top n states (all
of them when at most n remain), touches neither Leave nor the inline
tracker, and calls Return exactly once on the resulting top (the
rematerialized root when the stack was cleared). -/
theorem c4_dropStates_behavior {S H : Type} (root : S) (st : List S)
    (ims : List (Int × H)) (n : Nat) :
    (n < st.length →
      dropStates root (⟨st, ims⟩ : StmSession S H) n =
        (⟨st.take (st.length - n), ims⟩,
         [LifeEvent.ret ((st.take (st.length - n)).getLast?.getD root)])) ∧
    (st.length ≤ n →
      dropStates root (⟨st, ims⟩ : StmSession S H) n =
        (⟨[root], ims⟩, [LifeEvent.ret root])) := by
  constructor
  · intro hn
    have hpos : 0 < st.length - n := Nat.sub_pos_of_lt hn
    have hlenpos : 0 < st.length := Nat.lt_of_le_of_lt (Nat.zero_le n) hn
    have hlen : 0 < (st.take (st.length - n)).length := by
      rw [List.length_take]
      exact lt_min hpos hlenpos
    have hne : st.take (st.length - n) ≠ [] := List.length_pos.mp hlen
    cases hl : (st.take (st.length - n)).getLast? with
    | none => exact absurd (List.getLast?_eq_none_iff.mp hl) hne
    | some a =>
      simp [dropStates, hn, getOrPushCurrentState, hl]
  · intro hle
    have hnot : ¬ st.length > n := Nat.not_lt.mpr hle
    simp [dropStates, hnot, getOrPushCurrentState]

/-- Claim C4 witness: on the stack holding R, A, B (bottom to top),
DropStates 2 yields the stack holding R alone, with Return called
exactly once on R and no Leave and no tracker clearing. -/
theorem c4_dropStates_witness :
    2 < 3 ∧
    dropStates 9 (⟨[0, 1, 2], []⟩ : StmSession Nat Unit) 2 =
      (⟨[0], []⟩, [LifeEvent.ret 0]) := by
  refine ⟨by decide, ?_⟩
  have h := (c4_dropStates_behavior 9 [0, 1, 2] ([] : List (Int × Unit)) 2).1
    (by decide)
  simpa using h

/-- Claim C5: after any finite sequence of push, pop, replace, reset
and drop operations, querying the current state through
getOrPushCurrentState leaves a nonempty stack, returns exactly its
top element, and returns the root state whenever the stack was
empty before the query. -/
theorem c5_currentState_never_empty {S H : Type} (root : S)
    (bs0 : StmSession S H) (ops : List (StackOp S)) :
    (getOrPushCurrentState root (applyOps root bs0 ops)).2.stateStack ≠ [] ∧
    currentState (getOrPushCurrentState root (applyOps root bs0 ops)).2 =
      some (getOrPushCurrentState root (applyOps root bs0 ops)).1 ∧
    ((applyOps root bs0 ops).stateStack = [] →
      (getOrPushCurrentState root (applyOps root bs0 ops)).1 = root) := by
  obtain ⟨st, ims⟩ := applyOps root bs0 ops
  rcases st.eq_nil_or_concat' with rfl | ⟨ys, y, rfl⟩
  · exact ⟨by simp [getOrPushCurrentState], by simp [getOrPushCurrentState, currentState],
      fun _ => rfl⟩
  · refine ⟨?_, ?_, ?_⟩
    · simp [getOrPushCurrentState, List.getLast?_concat]
    · simp [getOrPushCurrentState, currentState, List.getLast?_concat]
    · intro h
      simp at h

/-- Claim C5 witness: the empty operation sequence on a fresh session
leaves the stack empty, and the query then materializes and returns
the root state. -/
theorem c5_currentState_witness :
    (applyOps 3 (⟨[], []⟩ : StmSession Nat Unit) []).stateStack = [] ∧
    (getOrPushCurrentState 3 (applyOps 3 (⟨[], []⟩ : StmSession Nat Unit) [])).1 = 3 :=
  ⟨rfl, (c5_currentState_never_empty 3 ⟨[], []⟩ []).2.2 rfl⟩

/-- Claim C6 is false as stated: DropStates takes a Go int, and on a
session whose stack is empty (the nil slice) the call with argument
-1 reslices the stack beyond its capacity, so the Go runtime aborts
the program with a bounds error (modelled by none) instead of acting
as a safe no-op. -/
theorem c6_dropStates_counterexample :
    dropStatesIntOnEmpty (0 : Nat) ([] : List (Int × Unit)) (-1) = none := by
  decide

/-- Claim C6 (amended): on a session whose stack is empty, PopState
is a safe no-op, and DropStates with any argument n at least zero is
safe beyond re-establishing the root state and calling Return on it;
for negative n DropStates aborts with a bounds error. -/
theorem c6_empty_stack_safe_amended {S H : Type} (root : S)
    (ims : List (Int × H)) :
    popState root (⟨[], ims⟩ : StmSession S H) = (⟨[], ims⟩, []) ∧
    (∀ n : Int, 0 ≤ n →
      dropStatesIntOnEmpty root ims n =
        some (⟨[root], ims⟩, [LifeEvent.ret root])) ∧
    (∀ n : Int, n < 0 → dropStatesIntOnEmpty root ims n = none) := by
  refine ⟨rfl, ?_, ?_⟩
  · intro n hn
    have hnot : ¬ n < 0 := not_lt.mpr hn
    simp [dropStatesIntOnEmpty, hnot, dropStates, getOrPushCurrentState]
  · intro n hn
    simp [dropStatesIntOnEmpty, hn]

/-- Claim C6 witness (for the amended statement): DropStates 5 on an
empty session re-establishes the root state and calls Return on it
without failing. -/
theorem c6_empty_stack_witness :
    (0 : Int) ≤ 5 ∧
    dropStatesIntOnEmpty (0 : Nat) ([] : List (Int × Unit)) 5 =
      some (⟨[0], []⟩, [LifeEvent.ret 0]) :=
  ⟨by decide, (c6_empty_stack_safe_amended 0 []).2.1 5 (by decide)⟩

/-- Claim C7: Bot.getOrCreateSession is idempotent per chat id.  When
the registry already holds a session for the chat id, the stored
session is returned unchanged, the registry is untouched and neither
a construction nor an Activate of the root state happens; only on the
first call for a chat id is a session constructed, stored with the
root state materialized, and its current (root) state activated. -/
theorem c7_getOrCreateSession_idempotent {S H : Type} (root : S)
    (b : BotModel S H) (chatId : Int) :
    (∀ s, lookupBy b.sessions chatId = some s →
      getOrCreateSession root b chatId = (s, b, [])) ∧
    (lookupBy b.sessions chatId = none →
      getOrCreateSession root b chatId =
        (⟨[root], []⟩, ⟨b.sessions ++ [(chatId, ⟨[root], []⟩)]⟩,
         [BotEvent.sessionConstructed chatId, BotEvent.activate root])) := by
  constructor
  · intro s h
    simp [getOrCreateSession, h]
  · intro h
    simp [getOrCreateSession, h, getOrPushCurrentState]

/-- Claim C7 witness: a second lookup for chat id 1 in a registry
that already holds a live session for it returns that session with
the registry unchanged and no construction or activation events. -/
theorem c7_getOrCreateSession_witness :
    lookupBy (⟨[(1, ⟨[3], [(2, ())]⟩)]⟩ : BotModel Nat Unit).sessions 1 =
      some ⟨[3], [(2, ())]⟩ ∧
    getOrCreateSession 0 (⟨[(1, ⟨[3], [(2, ())]⟩)]⟩ : BotModel Nat Unit) 1 =
      (⟨[3], [(2, ())]⟩, ⟨[(1, ⟨[3], [(2, ())]⟩)]⟩, []) :=
  ⟨rfl,
   (c7_getOrCreateSession_idempotent 0 ⟨[(1, ⟨[3], [(2, ())]⟩)]⟩ 1).1
     ⟨[3], [(2, ())]⟩ rfl⟩

/-- Claim C8: for a callback query event the current top state is
asked first via HandleCallbackQuery; when it declines, the tracked
inline binding for the message id is resolved and invoked (with the
query acknowledged on success); when no binding exists or the bound
handler declines, the keyboard of the triggering message is removed
and the query is acknowledged with the expiry alert; and every path
reports the event as handled. -/
theorem c8_callback_routing {S H D : Type} (root : S)
    (stateHandles : S → D → Bool) (handlerHandles : H → D → Bool)
    (bs : StmSession S H) (mid : Int) (dat : D) :
    (handleCallbackEvent root stateHandles handlerHandles bs mid dat).2.2 = true ∧
    (stateHandles (getOrPushCurrentState root bs).1 dat = true →
      handleCallbackEvent root stateHandles handlerHandles bs mid dat =
        ((getOrPushCurrentState root bs).2, [], true)) ∧
    (stateHandles (getOrPushCurrentState root bs).1 dat = false →
      (∀ h, lookupBy (getOrPushCurrentState root bs).2.currentInlineMessages mid = some h →
        (handlerHandles h dat = true →
          handleCallbackEvent root stateHandles handlerHandles bs mid dat =
            ((getOrPushCurrentState root bs).2, [CbEffect.ackQuery], true)) ∧
        (handlerHandles h dat = false →
          handleCallbackEvent root stateHandles handlerHandles bs mid dat =
            ((getOrPushCurrentState root bs).2,
             [CbEffect.removedKeyboard mid, CbEffect.expiredAlert], true))) ∧
      (lookupBy (getOrPushCurrentState root bs).2.currentInlineMessages mid = none →
        handleCallbackEvent root stateHandles handlerHandles bs mid dat =
          ((getOrPushCurrentState root bs).2,
           [CbEffect.removedKeyboard mid, CbEffect.expiredAlert], true))) := by
  refine ⟨?_, ?_, ?_⟩
  · unfold handleCallbackEvent
    cases hst : stateHandles (getOrPushCurrentState root bs).1 dat
    · cases hl : lookupBy (getOrPushCurrentState root bs).2.currentInlineMessages mid with
      | none => simp [hst, hl]
      | some h =>
        cases hh : handlerHandles h dat
        · simp [hst, hl, hh]
        · simp [hst, hl, hh]
    · simp [hst]
  · intro hst
    unfold handleCallbackEvent
    simp [hst]
  · intro hst
    constructor
    · intro h hl
      constructor
      · intro hh
        unfold handleCallbackEvent
        simp [hst, hl, hh]
      · intro hh
        unfold handleCallbackEvent
        simp [hst, hl, hh]
    · intro hl
      unfold handleCallbackEvent
      simp [hst, hl]

/-- Claim C8 witness: with a top state that declines the query and an
empty tracker, the event falls through to the expired interaction
path, removing the keyboard of message 9 and acknowledging with the
expiry alert, and is still reported as handled. -/
theorem c8_callback_witness :
    handleCallbackEvent (0 : Nat) (fun _ _ => false)
        (fun (_ : Unit) (_ : Nat) => false)
        (⟨[3], []⟩ : StmSession Nat Unit) 9 4 =
      (⟨[3], []⟩, [CbEffect.removedKeyboard 9, CbEffect.expiredAlert], true) := by
  have h := (c8_callback_routing (0 : Nat) (fun _ _ => false)
      (fun (_ : Unit) (_ : Nat) => false)
      (⟨[3], []⟩ : StmSession Nat Unit) 9 4).2.2 rfl
  have h2 := h.2 rfl
  simpa using h2

/-- Claim C9: an inbound update from a user the user manager does not
know, arriving while no accept window is open, is dropped without
asking the user manager to register the user and without touching the
session registry; and an update from a known user is admitted to
session resolution regardless of the accept window state. -/
theorem c9_admission_gate {S H : Type} (root : S) (b : BotModel S H)
    (chatId : Int) :
    (∀ addUserOk : Bool,
      runUpdateAdmission root b false false addUserOk chatId =
        (b, ⟨false, false⟩)) ∧
    (∀ acceptNewUser addUserOk : Bool,
      runUpdateAdmission root b true acceptNewUser addUserOk chatId =
        ((getOrCreateSession root b chatId).2.1, ⟨false, true⟩)) := by
  constructor
  · intro addUserOk
    simp [runUpdateAdmission]
  · intro acceptNewUser addUserOk
    simp [runUpdateAdmission]

/-- Claim C10: ReplaceState on a session whose stack is empty is a
no-op: the stack stays empty, the new state is not installed, the
tracker is untouched and Enter is never called. -/
theorem c10_replaceState_empty_noop {S H : Type} (ims : List (Int × H))
    (s : S) :
    replaceState (⟨[], ims⟩ : StmSession S H) s = (⟨[], ims⟩, []) := rfl
